import Mathlib

/-!
# A shallow embedding of `pyhive/sqlalchemy_hive.py`

Each definition below translates one piece of the Hive dialect adapter into
Lean: rendered SQL statements are `String`s, database rows are triples of
`Option String`, Python exceptions are an explicit `PyErr` type and a raised
exception is the `Except.error` branch, and the class-attribute assignment
`mapped_type.item_type = ...` performed by `HiveDialect.get_columns` on the
shared `_type_map` entries is threaded as explicit registry state.
-/

/-- Python's `\s` character class (ASCII range), as used by `re`. -/
def is_py_space (c : Char) : Bool :=
  c == ' ' || c == '\t' || c == '\n' || c == '\r' || c == '\x0b' || c == '\x0c'

/-- Python's `\w` character class (ASCII range): letters, digits, underscore. -/
def is_word_char (c : Char) : Bool :=
  c.isAlphanum || c == '_'

/-- Python `str.strip()` restricted to ASCII whitespace. -/
def py_strip (s : String) : String :=
  ⟨((s.data.dropWhile is_py_space).reverse.dropWhile is_py_space).reverse⟩

/-- Match the literal `lit` at the head of `s`; on success return the rest. -/
def expect_lit (lit s : List Char) : Option (List Char) :=
  if lit.isPrefixOf s then some (s.drop lit.length) else none

/-- Python `re.search` driver: does the anchored matcher `m` succeed at some
position of `s`? -/
def regex_search {α : Type} (m : List Char → Option α) : List Char → Bool
  | [] => (m []).isSome
  | c :: cs => (m (c :: cs)).isSome || regex_search m cs

/-- Anchored matcher for `HiveCompiler.insert_regex`, i.e.
`(INSERT INTO) ([^\s]+) \([^\)]*\)`, at the start of `s`.  Every quantifier in
that pattern is immediately followed by a character it cannot match, so the
greedy maximal-munch match is the only possible one and no backtracking is
needed.  Returns the second group and the text after the matched span. -/
def match_insert_at (s : List Char) : Option (String × List Char) :=
  match expect_lit "INSERT INTO ".data s with
  | none => none
  | some s1 =>
    let tgt := s1.takeWhile (fun c => !is_py_space c)
    if tgt = [] then none
    else
      match expect_lit " (".data (s1.drop tgt.length) with
      | none => none
      | some s3 =>
        let inner := s3.takeWhile (fun c => c != ')')
        match s3.drop inner.length with
        | ')' :: rest => some (⟨tgt⟩, rest)
        | _ => none

/-- Anchored matcher for `HiveCompiler.insert_partition_regex`, i.e.
`(INSERT INTO) ([^\s]+) (PARTITION \([^\)]+\)) \([^\)]*\)`, at the start of
`s`.  Returns groups 2 and 3 and the text after the matched span. -/
def match_insert_partition_at (s : List Char) : Option (String × String × List Char) :=
  match expect_lit "INSERT INTO ".data s with
  | none => none
  | some s1 =>
    let tgt := s1.takeWhile (fun c => !is_py_space c)
    if tgt = [] then none
    else
      match expect_lit " PARTITION (".data (s1.drop tgt.length) with
      | none => none
      | some s3 =>
        let pspec := s3.takeWhile (fun c => c != ')')
        if pspec = [] then none
        else
          match s3.drop pspec.length with
          | ')' :: s4 =>
            match expect_lit " (".data s4 with
            | none => none
            | some s5 =>
              let inner := s5.takeWhile (fun c => c != ')')
              match s5.drop inner.length with
              | ')' :: rest => some (⟨tgt⟩, ⟨"PARTITION (".data ++ pspec ++ [')']⟩, rest)
              | _ => none
          | _ => none

/-- Python `re.sub` for `insert_regex` with replacement `\1 TABLE \2`:
replace every non-overlapping match, scanning left to right.  The fuel
argument bounds the recursion; each step consumes at least one character, so
fuel `s.length` gives the exact substitution. -/
def sub_insert : Nat → List Char → List Char
  | 0, s => s
  | fuel + 1, s =>
    match match_insert_at s with
    | some (tgt, rest) => ("INSERT INTO TABLE " ++ tgt).data ++ sub_insert fuel rest
    | none =>
      match s with
      | [] => []
      | c :: cs => c :: sub_insert fuel cs

/-- Python `re.sub` for `insert_partition_regex` with replacement
`\1 TABLE \2 \3`. -/
def sub_insert_partition : Nat → List Char → List Char
  | 0, s => s
  | fuel + 1, s =>
    match match_insert_partition_at s with
    | some (tgt, grp3, rest) =>
      ("INSERT INTO TABLE " ++ tgt ++ " " ++ grp3).data ++ sub_insert_partition fuel rest
    | none =>
      match s with
      | [] => []
      | c :: cs => c :: sub_insert_partition fuel cs

/-- `HiveCompiler.visit_insert`, applied to the generically rendered statement
text produced by the superclass.  A failed `assert` is the `Except.error`
branch, carrying the assertion message. -/
def visit_insert (result : String) : Except String String :=
  if regex_search match_insert_at result.data then
    .ok ⟨sub_insert result.data.length result.data⟩
  else if regex_search match_insert_partition_at result.data then
    .ok ⟨sub_insert_partition result.data.length result.data⟩
  else
    .error ("Unexpected visit_insert result: " ++ result)

/-- Python `result[result.index(".") + 1:]`: everything after the first dot. -/
def drop_through_dot : List Char → List Char
  | [] => []
  | c :: cs => if c == '.' then cs else drop_through_dot cs

/-- `HiveCompiler.visit_column`, applied to the generically rendered column
reference produced by the superclass. -/
def visit_column (result : String) : Except String String :=
  if result.data.countP (fun c => c == '.') = 0
      ∨ result.data.countP (fun c => c == '.') = 1
      ∨ result.data.countP (fun c => c == '.') = 2 then
    .ok (if result.data.countP (fun c => c == '.') = 2 then ⟨drop_through_dot result.data⟩
         else result)
  else
    .error ("Unexpected visit_column result " ++ result)

/-- The classes of SQLAlchemy type objects that appear as values of the
dialect's `_type_map` dictionary (plus `types.NullType`, substituted for
unrecognized tokens).  `types.Float` serves both `float` and `double`;
`types.String` serves `string`, `varchar`, `char`, `binary`, `map`, `struct`
and `uniontype`. -/
inductive TypeClass where
  | boolean
  | tinyint
  | smallint
  | integer
  | bigint
  | float
  | string
  | hiveDate
  | hiveTimestamp
  | hiveArray
  | hiveDecimal
  | nullType
deriving DecidableEq

/-- The `_type_map` dictionary: token to type class, `none` is a `KeyError`. -/
def type_map_lookup : String → Option TypeClass
  | "boolean" => some .boolean
  | "tinyint" => some .tinyint
  | "smallint" => some .smallint
  | "int" => some .integer
  | "bigint" => some .bigint
  | "float" => some .float
  | "double" => some .float
  | "string" => some .string
  | "varchar" => some .string
  | "char" => some .string
  | "date" => some .hiveDate
  | "timestamp" => some .hiveTimestamp
  | "binary" => some .string
  | "array" => some .hiveArray
  | "map" => some .string
  | "struct" => some .string
  | "uniontype" => some .string
  | "decimal" => some .hiveDecimal
  | _ => none

/-- Python exceptions raised (or propagated) by the translated code. -/
inductive PyErr where
  | keyError : String → PyErr
  | typeError : String → PyErr
  | attributeError : String → PyErr
  | valueError : String → PyErr
  | nameError : String → PyErr
  | notImplemented : String → PyErr
  | noSuchTable : String → PyErr
  | operational : String → PyErr
deriving DecidableEq

/-- One raw `DESCRIBE` row: `(col_name, data_type, comment)`, each cell a
string or `None`. -/
abbrev Row := Option String × Option String × Option String

/-- A row that survived the strip-and-filter step: its first cell is a
non-empty string. -/
abbrev SRow := String × Option String × Option String

/-- Outcome of `connection.execute(DESCRIBE ...)`: rows, or an
`OperationalError` whose `args[0]` is the given text. -/
inductive DBResult where
  | ok : List Row → DBResult
  | err : String → DBResult

/-- The mutable `item_type` class attribute that `get_columns` assigns onto
entries of `_type_map`: for each type class, the attached item class if any.
The Python classes are process-global, so this state is shared by every
introspection call. -/
abbrev Registry := TypeClass → Option TypeClass

/-- The registry state of a fresh process: no `item_type` attribute set. -/
def emptyRegistry : Registry := fun _ => none

/-- The attribute assignment `c.item_type = v`. -/
def regSet (r : Registry) (c v : TypeClass) : Registry :=
  fun x => if x = c then some v else r x

/-- Python `col.strip() if col else None` on one cell. -/
def strip_cell : Option String → Option String
  | none => none
  | some s => if s = "" then none else some (py_strip s)

/-- The two comprehensions shared by `get_columns` and `get_indexes`: strip
every cell, then keep rows whose first cell is truthy and not the header
marker `# col_name`. -/
def strip_filter (rows : List Row) : List SRow :=
  rows.filterMap (fun r =>
    match strip_cell r.1 with
    | none => none
    | some s =>
      if s = "" ∨ s = "# col_name" then none
      else some (s, strip_cell r.2.1, strip_cell r.2.2))

/-- Python `re.search(r"^array<(\w+)>", col_type, re.I)`: on success, the
first capture group.  The `\w+` run is forced (maximal munch), so no
backtracking is needed. -/
def array_item_match (s : String) : Option String :=
  if (s.data.take 6).map Char.toLower = "array<".data then
    let after := s.data.drop 6
    let inner := after.takeWhile is_word_char
    if inner = [] then none
    else
      match after.drop inner.length with
      | '>' :: _ => some ⟨inner⟩
      | _ => none
  else none

/-- The column dictionary built by `get_columns` for one row. -/
structure ColDesc where
  name : String
  type : TypeClass
  nullable : Bool
  default : Option String
  comment : Option String
deriving DecidableEq

/-- The `util.warn` message for an unrecognized type token. -/
def warn_msg (col_type col_name : String) : String :=
  "Did not recognize type '" ++ col_type ++ "' of column '" ++ col_name ++ "'"

/-- The dictionary `get_columns` appends for a resolved column. -/
def mk_desc (name : String) (t : TypeClass) (comment : Option String) : ColDesc :=
  { name := name, type := t, nullable := true, default := none, comment := comment }

/-- The main loop of `HiveDialect.get_columns` over the filtered rows,
threading the shared registry state and accumulating `util.warn` messages.
A `col_type` of `None` makes `re.search` raise `TypeError`; a `col_type`
with no leading word characters makes `.group(0)` raise `AttributeError`;
an unknown item token inside `array<...>` raises `KeyError` — all uncaught. -/
def resolve_rows (reg : Registry) : List SRow → Except PyErr (Registry × List String × List ColDesc)
  | [] => .ok (reg, [], [])
  | (col_name, ctype, comment) :: rest =>
    if col_name = "# Partition Information" then .ok (reg, [], [])
    else
      match ctype with
      | none => .error (.typeError "expected string or bytes-like object")
      | some ct =>
        if ct.data.takeWhile is_word_char = [] then
          .error (.attributeError "NoneType object has no attribute group")
        else
          let ws_mapped : List String × TypeClass :=
            match type_map_lookup ⟨ct.data.takeWhile is_word_char⟩ with
            | some c => ([], c)
            | none => ([warn_msg ct col_name], TypeClass.nullType)
          match array_item_match ct with
          | some inner =>
            match type_map_lookup inner with
            | none => .error (.keyError inner)
            | some icls =>
              (resolve_rows (regSet reg ws_mapped.2 icls) rest).map
                (fun x => (x.1, ws_mapped.1 ++ x.2.1,
                  mk_desc col_name ws_mapped.2 comment :: x.2.2))
          | none =>
            (resolve_rows reg rest).map
              (fun x => (x.1, ws_mapped.1 ++ x.2.1,
                mk_desc col_name ws_mapped.2 comment :: x.2.2))

/-- First occurrence of `p` as a sublist of `s`; returns the text after it.
Taking the earliest occurrence loses no matches here because the text before
the occurrence is unconstrained. -/
def find_sub (p : List Char) : List Char → Option (List Char)
  | [] => if p = [] then some [] else none
  | c :: cs =>
    if p.isPrefixOf (c :: cs) then some ((c :: cs).drop p.length)
    else find_sub p cs

/-- First occurrence of `p` reachable without crossing a newline (Python's
`.*` does not match `\n`); returns the text after it.  Within a single line
the earliest occurrence again loses no matches. -/
def find_in_line (p : List Char) : List Char → Option (List Char)
  | [] => if p = [] then some [] else none
  | c :: cs =>
    if p.isPrefixOf (c :: cs) then some ((c :: cs).drop p.length)
    else if c = '\n' then none
    else find_in_line p cs

/-- Python `re.search(regex_fmt.format(re.escape(full_table)), text)` for
`regex_fmt = r"TExecuteStatementResp.*SemanticException.*Table not found {}"`:
the match may start at any position (so every start of
`TExecuteStatementResp` is tried), and both `.*` gaps must stay on one line. -/
def tnf_search (full_table : String) : List Char → Bool
  | [] => false
  | c :: cs =>
    (if "TExecuteStatementResp".data.isPrefixOf (c :: cs) then
      match find_in_line "SemanticException".data
          ((c :: cs).drop "TExecuteStatementResp".data.length) with
      | some r2 => (find_in_line ("Table not found " ++ full_table).data r2).isSome
      | none => false
    else false)
    || tnf_search full_table cs

/-- Python `re.match(r"Table .* does not exist", col_name)`: anchored at the
start, with a single-line gap. -/
def does_not_exist_match (s : String) : Bool :=
  "Table ".data.isPrefixOf s.data
    && (find_in_line " does not exist".data (s.data.drop "Table ".length)).isSome

/-- `schema + "." + table_name` when a schema is given. -/
def full_table_name (table_name : String) (schema : Option String) : String :=
  match schema with
  | some s => s ++ "." ++ table_name
  | none => table_name

/-- `HiveDialect._get_table_columns`, applied to the outcome of the
`DESCRIBE` query.  On an `OperationalError` whose text matches the
table-not-found signature it raises `NoSuchTableError`, otherwise it
re-raises; on success it checks the single-row "does not exist" shape. -/
def _get_table_columns (full_table : String) (res : DBResult) : Except PyErr (List Row) :=
  match res with
  | .err msg =>
    if tnf_search full_table msg.data then .error (.noSuchTable full_table)
    else .error (.operational msg)
  | .ok rows =>
    match rows with
    | [r] =>
      match r.1 with
      | some cn =>
        if does_not_exist_match cn then .error (.noSuchTable full_table) else .ok rows
      | none => .error (.typeError "expected string or bytes-like object")
    | _ => .ok rows

/-- `HiveDialect.has_table`: `True` on rows, `False` on `NoSuchTableError`,
anything else propagates. -/
def has_table (table_name : String) (schema : Option String) (res : DBResult) :
    Except PyErr Bool :=
  match _get_table_columns (full_table_name table_name schema) res with
  | .ok _ => .ok true
  | .error (.noSuchTable _) => .ok false
  | .error e => .error e

/-- `HiveDialect.get_columns`: fetch, strip, filter, then resolve each column
row against the type map, mutating the shared registry state. -/
def get_columns (reg : Registry) (table_name : String) (schema : Option String)
    (res : DBResult) : Except PyErr (Registry × List String × List ColDesc) :=
  match _get_table_columns (full_table_name table_name schema) res with
  | .error e => .error e
  | .ok rows => resolve_rows reg (strip_filter rows)

/-- The single index dictionary `get_indexes` may return. -/
structure IndexDesc where
  name : String
  column_names : List String
  unique : Bool
deriving DecidableEq

/-- The value of the loop variable `i` after
`for i, (...) in enumerate(rows): if col_name == "# Partition Information": break`:
the index of the first marker row, or the last index when there is no marker,
or undefined (`NameError` downstream) when the list is empty. -/
def marker_scan_index (rs : List SRow) : Option Nat :=
  match rs.findIdx? (fun r => r.1 = "# Partition Information") with
  | some i => some i
  | none =>
    match rs with
    | [] => none
    | _ => some (rs.length - 1)

/-- `HiveDialect.get_indexes`: same fetch/strip/filter, then collect the rows
after the partition marker as partition column names. -/
def get_indexes (table_name : String) (schema : Option String) (res : DBResult) :
    Except PyErr (List IndexDesc) :=
  match _get_table_columns (full_table_name table_name schema) res with
  | .error e => .error e
  | .ok rows =>
    let rows' := strip_filter rows
    match marker_scan_index rows' with
    | none => .error (.nameError "name i is not defined")
    | some i =>
      let col_names := (rows'.drop (i + 1)).map (fun r => r.1)
      if col_names = [] then .ok []
      else .ok [{ name := "partition", column_names := col_names, unique := false }]

/-- Python's `<` on strings, on the underlying character lists: lexicographic
by code point, a strict prefix comparing below its extension. -/
def chars_ltb : List Char → List Char → Bool
  | _, [] => false
  | [], _ :: _ => true
  | a :: as, b :: bs => if a < b then true else if a = b then chars_ltb as bs else false

theorem chars_ltb_trichotomy : ∀ a b : List Char,
    chars_ltb a b = true ∨ chars_ltb b a = true ∨ a = b := by
  intro a
  induction a with
  | nil =>
    intro b
    cases b with
    | nil => exact Or.inr (Or.inr rfl)
    | cons c cs => exact Or.inl rfl
  | cons x xs ih =>
    intro b
    cases b with
    | nil => exact Or.inr (Or.inl rfl)
    | cons y ys =>
      rcases lt_trichotomy x y with h | h | h
      · exact Or.inl (by simp [chars_ltb, h])
      · subst h
        rcases ih ys with h2 | h2 | h2
        · exact Or.inl (by simp [chars_ltb, h2])
        · exact Or.inr (Or.inl (by simp [chars_ltb, h2]))
        · exact Or.inr (Or.inr (by rw [h2]))
      · exact Or.inr (Or.inl (by simp [chars_ltb, h]))

theorem chars_ltb_asymm : ∀ a b : List Char,
    chars_ltb a b = true → chars_ltb b a = true → False := by
  intro a
  induction a with
  | nil =>
    intro b h1 h2
    cases b with
    | nil => simp [chars_ltb] at h1
    | cons c cs => simp [chars_ltb] at h2
  | cons x xs ih =>
    intro b h1 h2
    cases b with
    | nil => simp [chars_ltb] at h1
    | cons y ys =>
      rcases lt_trichotomy x y with h | h | h
      · have : ¬y < x := not_lt_of_lt h
        have : ¬y = x := fun e => absurd (e ▸ h) (lt_irrefl _)
        simp [chars_ltb, not_lt_of_lt h, this] at h2
      · subst h
        simp [chars_ltb, lt_irrefl] at h1 h2
        exact ih ys h1 h2
      · have : ¬x = y := fun e => absurd (e ▸ h) (lt_irrefl _)
        simp [chars_ltb, not_lt_of_lt h, this] at h1

theorem chars_ltb_trans : ∀ a b c : List Char,
    chars_ltb a b = true → chars_ltb b c = true → chars_ltb a c = true := by
  intro a
  induction a with
  | nil =>
    intro b c h1 h2
    cases c with
    | nil =>
      cases b with
      | nil => simp [chars_ltb] at h1
      | cons y ys => simp [chars_ltb] at h2
    | cons z zs => exact rfl
  | cons x xs ih =>
    intro b c h1 h2
    cases b with
    | nil => simp [chars_ltb] at h1
    | cons y ys =>
      cases c with
      | nil => simp [chars_ltb] at h2
      | cons z zs =>
        by_cases hxy : x < y
        · by_cases hyz : y < z
          · simp [chars_ltb, hxy.trans hyz]
          · by_cases heyz : y = z
            · subst heyz
              simp [chars_ltb, hxy]
            · simp [chars_ltb, hyz, heyz] at h2
        · by_cases hexy : x = y
          · subst hexy
            simp [chars_ltb, lt_irrefl] at h1
            by_cases hyz : x < z
            · simp [chars_ltb, hyz]
            · by_cases heyz : x = z
              · subst heyz
                simp [chars_ltb, lt_irrefl] at h2 ⊢
                exact ih ys zs h1 h2
              · simp [chars_ltb, hyz, heyz] at h2
          · simp [chars_ltb, hxy, hexy] at h1

/-- The comparison Python's `sorted` applies to the `(key, value)` tuples of
`table.kwargs["hive_table_properties"].items()`: lexicographic tuple order
over lexicographic string order. -/
def pair_le (a b : String × String) : Prop :=
  chars_ltb a.1.data b.1.data = true
    ∨ (a.1 = b.1 ∧ (chars_ltb a.2.data b.2.data = true ∨ a.2 = b.2))

instance : DecidableRel pair_le := fun a b =>
  inferInstanceAs (Decidable (_ ∨ _))

theorem string_eq_of_data_eq : ∀ {s t : String}, s.data = t.data → s = t
  | ⟨_⟩, ⟨_⟩, h => congrArg String.mk h

instance : IsTotal (String × String) pair_le where
  total a b := by
    rcases chars_ltb_trichotomy a.1.data b.1.data with h | h | h
    · exact Or.inl (Or.inl h)
    · exact Or.inr (Or.inl h)
    · have e1 : a.1 = b.1 := string_eq_of_data_eq h
      rcases chars_ltb_trichotomy a.2.data b.2.data with h2 | h2 | h2
      · exact Or.inl (Or.inr ⟨e1, Or.inl h2⟩)
      · exact Or.inr (Or.inr ⟨e1.symm, Or.inl h2⟩)
      · exact Or.inl (Or.inr ⟨e1, Or.inr (string_eq_of_data_eq h2)⟩)

instance : IsTrans (String × String) pair_le where
  trans a b c hab hbc := by
    rcases hab with h1 | ⟨e1, l1⟩
    · rcases hbc with h2 | ⟨e2, l2⟩
      · exact Or.inl (chars_ltb_trans _ _ _ h1 h2)
      · exact Or.inl (e2 ▸ h1)
    · rcases hbc with h2 | ⟨e2, l2⟩
      · exact Or.inl (e1 ▸ h2)
      · refine Or.inr ⟨e1.trans e2, ?_⟩
        rcases l1 with l1 | l1
        · rcases l2 with l2 | l2
          · exact Or.inl (chars_ltb_trans _ _ _ l1 l2)
          · exact Or.inl (l2 ▸ l1)
        · rcases l2 with l2 | l2
          · exact Or.inl (l1 ▸ l2)
          · exact Or.inr (l1.trans l2)

instance : IsAntisymm (String × String) pair_le where
  antisymm a b hab hba := by
    rcases hab with h1 | ⟨e1, l1⟩
    · rcases hba with h2 | ⟨e2, l2⟩
      · exact (chars_ltb_asymm _ _ h1 h2).elim
      · exact (chars_ltb_asymm _ _ (e2 ▸ h1) (e2 ▸ h1)).elim
    · rcases hba with h2 | ⟨e2, l2⟩
      · exact (chars_ltb_asymm _ _ (e1 ▸ h2) (e1 ▸ h2)).elim
      · refine Prod.ext_iff.mpr ⟨e1, ?_⟩
        rcases l1 with l1 | l1
        · rcases l2 with l2 | l2
          · exact (chars_ltb_asymm _ _ l1 l2).elim
          · exact l2.symm
        · exact l1

/-- The `TBLPROPERTIES` clause of `HiveDDLCompiler.post_create_table`: the
`'key' = 'value'` pairs of the mapping, sorted, comma-joined, parenthesized. -/
def tblproperties_clause (props : List (String × String)) : String :=
  "TBLPROPERTIES (" ++
    String.intercalate ", "
      ((List.insertionSort pair_le props).map (fun p => "'" ++ p.1 ++ "' = '" ++ p.2 ++ "'"))
    ++ ")"

/-- The table metadata consumed by `post_create_table`: the table comment and
the recognized `hive_*` keyword arguments; `none` means the kwarg is absent.
The property mapping is a key/value list in dictionary insertion order. -/
structure HiveTable where
  comment : Option String
  hive_partitioned_by : Option String
  hive_clustered_by : Option String
  hive_stored_as : Option String
  hive_table_properties : Option (List (String × String))

/-- The inner `table_opts` generator: clauses in their fixed order.  An empty
comment string is falsy in Python, so it yields nothing. -/
def table_opts (t : HiveTable) : List String :=
  (match t.comment with
    | some c => if c = "" then [] else ["COMMENT '" ++ c ++ "'"]
    | none => []) ++
  (match t.hive_partitioned_by with
    | some v => ["PARTITIONED BY " ++ v]
    | none => []) ++
  (match t.hive_clustered_by with
    | some v => ["CLUSTERED BY " ++ v]
    | none => []) ++
  (match t.hive_stored_as with
    | some v => ["STORED AS " ++ v]
    | none => []) ++
  (match t.hive_table_properties with
    | some ps => [tblproperties_clause ps]
    | none => [])

/-- `HiveDDLCompiler.post_create_table`: newline, then the clauses joined by
newlines. -/
def post_create_table (t : HiveTable) : String :=
  "\n" ++ String.intercalate "\n" (table_opts t)

/-- A Python value passed as (or stored in) the `item_type` of `HiveArray`:
an instance of a scalar type class, a `HiveArray` instance, a class object,
or a string token. -/
inductive PyTypeObj where
  | plainInst : TypeClass → PyTypeObj
  | arrInst : PyTypeObj → Option Int → Bool → PyTypeObj
  | clsRef : TypeClass → PyTypeObj
  | strRef : String → PyTypeObj

/-- Calling a type class with no arguments, as `item_type = item_type()`
does: every scalar class yields an instance, but `HiveArray()` is missing its
required `item_type` argument. -/
def instantiate_class (c : TypeClass) : Except PyErr PyTypeObj :=
  match c with
  | .hiveArray => .error (.typeError "missing 1 required positional argument: item_type")
  | c => .ok (.plainInst c)

/-- `HiveArray.__init__`: reject a `HiveArray` instance as item type, call a
class to instantiate it, resolve a string through `_type_map` (keeping the
class uninstantiated), then store the fields. -/
def hive_array_init (item_type : PyTypeObj) (dimensions : Option Int)
    (zero_indexes : Bool) : Except PyErr PyTypeObj :=
  match item_type with
  | .arrInst _ _ _ =>
    .error (.valueError
      "Do not nest ARRAY types; ARRAY(basetype) handles multi-dimensional arrays of basetype")
  | .clsRef c =>
    match instantiate_class c with
    | .error e => .error e
    | .ok inst => .ok (.arrInst inst dimensions zero_indexes)
  | .strRef s =>
    match type_map_lookup s with
    | some c => .ok (.arrInst (.clsRef c) dimensions zero_indexes)
    | none => .error (.keyError s)
  | .plainInst c => .ok (.arrInst (.plainInst c) dimensions zero_indexes)

/-- The three concrete subclasses of `HiveStringTypeBase`. -/
inductive HiveStringType where
  | hiveDate
  | hiveTimestamp
  | hiveDecimal

/-- `HiveStringTypeBase.process_bind_param`, inherited unchanged by
`HiveDate`, `HiveTimestamp` and `HiveDecimal`: it raises unconditionally,
for every value and dialect. -/
def process_bind_param {α β : Type} (t : HiveStringType) (value : α) (dialect : β) :
    Except PyErr Unit :=
  .error (.notImplemented "Writing to Hive not supported")

/-- Modelled from the spec: the identifier-quoting collaborator wraps every
identifier in the single fixed quote character (a backtick). -/
def quote_identifier (s : String) : String :=
  "`" ++ s ++ "`"

/-- The connection collaborator for `SHOW TABLES`: maps a query string to
rows, each row carrying its first column and the remaining cells. -/
abbrev Conn := String → List (String × List String)

/-- `HiveDialect.get_table_names`: `SHOW TABLES`, optionally `IN` a quoted
schema, taking the first cell of each row. -/
def get_table_names (conn : Conn) (schema : Option String) : List String :=
  (conn (match schema with
    | some s => "SHOW TABLES" ++ " IN " ++ quote_identifier s
    | none => "SHOW TABLES")).map (fun r => r.1)

/-- `HiveDialect.get_view_names`: Hive cannot query `tableType`, so this
returns `get_table_names` on the same arguments. -/
def get_view_names (conn : Conn) (schema : Option String) : List String :=
  get_table_names conn schema

/-- Order-preserving check that the given fragments occur in `s`, in order,
with arbitrary text between them: the literal reading of the claim's
"text contains `SemanticException...Table not found mytable`". -/
def contains_in_order : List String → List Char → Bool
  | [], _ => true
  | p :: ps, s =>
    match find_sub p.data s with
    | some r => contains_in_order ps r
    | none => false

/-- The descriptive rows of the introspection example: two regular columns,
the partition marker, an empty separator row, one partition column. -/
def c1_rows : List Row :=
  [(some "a", some "int", none),
   (some "b", some "array<int>", none),
   (some "# Partition Information", none, none),
   (some "", some "", none),
   (some "p", some "string", none)]

/-- Run `get_columns` twice in sequence — two tables, one process — starting
from a fresh registry, returning each call's column type classes and the
`item_type` attachment visible on the shared `array` entry after each call. -/
def introspect_twice (rows1 rows2 : List Row) :
    Option (List TypeClass × Option TypeClass × List TypeClass × Option TypeClass) :=
  match get_columns emptyRegistry "t1" none (.ok rows1) with
  | .error _ => none
  | .ok (r1, _, cs1) =>
    match get_columns r1 "t2" none (.ok rows2) with
    | .error _ => none
    | .ok (r2, _, cs2) =>
      some (cs1.map ColDesc.type, r1 TypeClass.hiveArray,
        cs2.map ColDesc.type, r2 TypeClass.hiveArray)

/-- C1: for the descriptive-row sequence [("a","int",None), ("b","array<int>",None),
("# Partition Information",None,None), ("","",None), ("p","string",None)],
`get_columns` returns exactly two column descriptors — a : Integer and
b : Array, the shared array entry carrying item type Integer — in that order,
and `get_indexes` on the same rows returns the partition column list ["p"]. -/
theorem spec_C1_introspection :
    ((get_columns emptyRegistry "some_table" none (.ok c1_rows)).map
        (fun x => (x.2.2.map (fun c => (c.name, c.type)), x.1 TypeClass.hiveArray))
      = .ok ([("a", TypeClass.integer), ("b", TypeClass.hiveArray)], some TypeClass.integer))
    ∧ get_indexes "some_table" none (.ok c1_rows)
      = .ok [{ name := "partition", column_names := ["p"], unique := false }] :=
  ⟨rfl, rfl⟩

/-- C2: `visit_insert` maps `INSERT INTO db.tbl (a, b) SELECT 1, 2` to
`INSERT INTO TABLE db.tbl SELECT 1, 2`, maps
`INSERT INTO db.tbl PARTITION (p=1) (a) SELECT 1` to
`INSERT INTO TABLE db.tbl PARTITION (p=1) SELECT 1`, and on any rendered text
matching neither pattern it fails with the assertion error instead of
returning text. -/
theorem spec_C2_visit_insert :
    visit_insert "INSERT INTO db.tbl (a, b) SELECT 1, 2"
      = .ok "INSERT INTO TABLE db.tbl SELECT 1, 2"
    ∧ visit_insert "INSERT INTO db.tbl PARTITION (p=1) (a) SELECT 1"
      = .ok "INSERT INTO TABLE db.tbl PARTITION (p=1) SELECT 1"
    ∧ ∀ s : String,
        regex_search match_insert_at s.data = false →
        regex_search match_insert_partition_at s.data = false →
        visit_insert s = .error ("Unexpected visit_insert result: " ++ s) := by
  refine ⟨rfl, rfl, ?_⟩
  intro s h1 h2
  simp [visit_insert, h1, h2]

/-- C2 witness: `SELECT 1` matches neither insert pattern, and `visit_insert`
fails on it with the assertion error. -/
theorem spec_C2_visit_insert_witness :
    regex_search match_insert_at "SELECT 1".data = false
    ∧ regex_search match_insert_partition_at "SELECT 1".data = false
    ∧ visit_insert "SELECT 1" = .error ("Unexpected visit_insert result: " ++ "SELECT 1") :=
  ⟨rfl, rfl, spec_C2_visit_insert.2.2 "SELECT 1" rfl rfl⟩

/-- C3 counterexample: the error text `SemanticException Table not found mytable`
contains the signature fragments the claim quotes, yet `has_table` propagates
the error instead of returning false — the code additionally requires the
`TExecuteStatementResp` prelude before `SemanticException`. -/
theorem spec_C3_counterexample :
    contains_in_order ["SemanticException", "Table not found mytable"]
        "SemanticException Table not found mytable".data = true
    ∧ has_table "mytable" none (.err "SemanticException Table not found mytable")
        = .error (.operational "SemanticException Table not found mytable") :=
  ⟨rfl, rfl⟩

/-- C3 (amended): for every engine error whose text matches the full signature
`TExecuteStatementResp.*SemanticException.*Table not found mytable`,
`has_table "mytable"` returns false without raising; for every engine error
whose text does not match that signature, the error is propagated unchanged. -/
theorem spec_C3_has_table : ∀ msg : String,
    (tnf_search "mytable" msg.data = true →
      has_table "mytable" none (.err msg) = .ok false)
    ∧ (tnf_search "mytable" msg.data = false →
      has_table "mytable" none (.err msg) = .error (.operational msg)) := by
  intro msg
  constructor
  · intro h
    simp [has_table, _get_table_columns, full_table_name, h]
  · intro h
    simp [has_table, _get_table_columns, full_table_name, h]

/-- C3 witness: a concrete matching error text yields `has_table = false`, and
a concrete non-matching one is propagated. -/
theorem spec_C3_has_table_witness :
    tnf_search "mytable"
        "TExecuteStatementResp: SemanticException [Error 10001]: Table not found mytable".data
      = true
    ∧ has_table "mytable" none
        (.err "TExecuteStatementResp: SemanticException [Error 10001]: Table not found mytable")
      = .ok false
    ∧ has_table "mytable" none (.err "network unreachable")
      = .error (.operational "network unreachable") :=
  ⟨rfl,
    (spec_C3_has_table
      "TExecuteStatementResp: SemanticException [Error 10001]: Table not found mytable").1 rfl,
    (spec_C3_has_table "network unreachable").2 rfl⟩

/-- C4: for every item type that is itself an Array type — an instance of
`HiveArray`, which is what `isinstance(item_type, HiveArray)` tests —
constructing an Array type with it fails with the configuration error
(`ValueError`) at construction time, before anything else runs. -/
theorem spec_C4_nested_array :
    ∀ (item : PyTypeObj) (d : Option Int) (z : Bool) (dims : Option Int) (zi : Bool),
      hive_array_init (.arrInst item d z) dims zi
        = .error (.valueError
            "Do not nest ARRAY types; ARRAY(basetype) handles multi-dimensional arrays of basetype") := by
  intro item d z dims zi
  rfl

/-- C5: for every value — of any type, so in particular for `HiveDate`,
`HiveTimestamp` and `HiveDecimal` values — and every dialect, binding the
value for writing fails with the unsupported-operation (`NotImplementedError`)
error; no bind path succeeds. -/
theorem spec_C5_bind_unsupported :
    ∀ {α β : Type} (t : HiveStringType) (v : α) (dialect : β),
      process_bind_param t v dialect
        = .error (.notImplemented "Writing to Hive not supported") := by
  intro α β t v d
  rfl

/-- C6: `visit_column` rewrites `s.t.c` to `t.c`, leaves `t.c` and `c`
unchanged, and fails with the assertion error on any rendered reference with
more than two separator dots. -/
theorem spec_C6_visit_column :
    visit_column "s.t.c" = .ok "t.c"
    ∧ visit_column "t.c" = .ok "t.c"
    ∧ visit_column "c" = .ok "c"
    ∧ ∀ s : String, 2 < s.data.countP (fun c => c == '.') →
        visit_column s = .error ("Unexpected visit_column result " ++ s) := by
  refine ⟨rfl, rfl, rfl, ?_⟩
  intro s h
  have hne : ¬(s.data.countP (fun c => c == '.') = 0
      ∨ s.data.countP (fun c => c == '.') = 1
      ∨ s.data.countP (fun c => c == '.') = 2) := by omega
  simp only [visit_column, if_neg hne]

/-- C6 witness: `a.b.c.d` has three separators and `visit_column` fails on it
with the assertion error. -/
theorem spec_C6_visit_column_witness :
    2 < "a.b.c.d".data.countP (fun c => c == '.')
    ∧ visit_column "a.b.c.d" = .error ("Unexpected visit_column result " ++ "a.b.c.d") :=
  ⟨by decide, spec_C6_visit_column.2.2.2 "a.b.c.d" (by decide)⟩

/-- C7 counterexample: the column type text `ARRAY<foo>` has type token
`ARRAY`, which is not in the (case-sensitive) type map — yet introspection of
the remaining columns does not continue: the case-insensitive `array<...>`
match fires, the inner token `foo` misses the map, and the `KeyError` aborts
`get_columns` before the following column `d` is processed. -/
theorem spec_C7_counterexample :
    type_map_lookup "ARRAY" = none
    ∧ get_columns emptyRegistry "t" none
        (.ok [(some "c", some "ARRAY<foo>", none), (some "d", some "int", none)])
      = .error (.keyError "foo") :=
  ⟨rfl, rfl⟩

/-- C7 (amended): for every column row whose type token misses the type map,
resolution substitutes `NullType` and emits the warning carrying the type
text and column name, and processing of the remaining rows continues —
unless the type text also matches `array<inner>` case-insensitively with
`inner` itself missing from the map, in which case introspection aborts with
a `KeyError` (when `inner` is known, the item class is attached onto the
`NullType` entry and processing still continues). -/
theorem spec_C7_unknown_token : ∀ (col_name ct : String) (comment : Option String)
    (rest : List SRow) (reg : Registry),
    col_name ≠ "# Partition Information" →
    ct.data.takeWhile is_word_char ≠ [] →
    type_map_lookup ⟨ct.data.takeWhile is_word_char⟩ = none →
    ((array_item_match ct = none →
        resolve_rows reg ((col_name, some ct, comment) :: rest)
          = (resolve_rows reg rest).map
              (fun x => (x.1, warn_msg ct col_name :: x.2.1,
                mk_desc col_name TypeClass.nullType comment :: x.2.2)))
      ∧ (∀ inner icls, array_item_match ct = some inner → type_map_lookup inner = some icls →
          resolve_rows reg ((col_name, some ct, comment) :: rest)
            = (resolve_rows (regSet reg TypeClass.nullType icls) rest).map
                (fun x => (x.1, warn_msg ct col_name :: x.2.1,
                  mk_desc col_name TypeClass.nullType comment :: x.2.2)))
      ∧ (∀ inner, array_item_match ct = some inner → type_map_lookup inner = none →
          resolve_rows reg ((col_name, some ct, comment) :: rest)
            = .error (.keyError inner))) := by
  intro col_name ct comment rest reg hname htok hlook
  refine ⟨?_, ?_, ?_⟩
  · intro harr
    simp [resolve_rows, hname, htok, hlook, harr]
  · intro inner icls harr hinner
    simp [resolve_rows, hname, htok, hlook, harr, hinner]
  · intro inner harr hinner
    simp [resolve_rows, hname, htok, hlook, harr, hinner]

/-- C7 witness: the unknown token `footype` (no array shape) yields the
`NullType` descriptor, the warning, and continuation over the rest. -/
theorem spec_C7_unknown_token_witness :
    ("c" : String) ≠ "# Partition Information"
    ∧ "footype".data.takeWhile is_word_char ≠ []
    ∧ type_map_lookup ⟨"footype".data.takeWhile is_word_char⟩ = none
    ∧ array_item_match "footype" = none
    ∧ resolve_rows emptyRegistry [("c", some "footype", none)]
        = (resolve_rows emptyRegistry []).map
            (fun x => (x.1, warn_msg "footype" "c" :: x.2.1,
              mk_desc "c" TypeClass.nullType none :: x.2.2)) :=
  ⟨by decide, by decide, rfl, rfl,
    (spec_C7_unknown_token "c" "footype" none [] emptyRegistry
      (by decide) (by decide) rfl).1 rfl⟩

/-- C8: rendering the table-properties clause for the mapping
{"b":"2","a":"1"} produces `TBLPROPERTIES ('a' = '1', 'b' = '2')` (also via
`post_create_table`), and in general the emitted pairs are determined by the
sorted order alone — any two insertion orders of the same mapping render
identically. -/
theorem spec_C8_tblproperties :
    tblproperties_clause [("b", "2"), ("a", "1")] = "TBLPROPERTIES ('a' = '1', 'b' = '2')"
    ∧ post_create_table
        { comment := none, hive_partitioned_by := none, hive_clustered_by := none,
          hive_stored_as := none, hive_table_properties := some [("b", "2"), ("a", "1")] }
      = "\nTBLPROPERTIES ('a' = '1', 'b' = '2')"
    ∧ ∀ l₁ l₂ : List (String × String), l₁.Perm l₂ →
        tblproperties_clause l₁ = tblproperties_clause l₂ := by
  refine ⟨by decide, by decide, ?_⟩
  intro l₁ l₂ hp
  have hs : List.insertionSort pair_le l₁ = List.insertionSort pair_le l₂ :=
    List.eq_of_perm_of_sorted
      ((List.perm_insertionSort pair_le l₁).trans
        (hp.trans (List.perm_insertionSort pair_le l₂).symm))
      (List.sorted_insertionSort pair_le l₁)
      (List.sorted_insertionSort pair_le l₂)
  simp [tblproperties_clause, hs]

/-- C8 witness: the two insertion orders of {"a":"1","b":"2"} render the same
clause. -/
theorem spec_C8_tblproperties_witness :
    ([("b", "2"), ("a", "1")] : List (String × String)).Perm [("a", "1"), ("b", "2")]
    ∧ tblproperties_clause [("b", "2"), ("a", "1")]
      = tblproperties_clause [("a", "1"), ("b", "2")] :=
  ⟨List.Perm.swap _ _ _, spec_C8_tblproperties.2.2 _ _ (List.Perm.swap _ _ _)⟩

/-- C9: resolving an `array<int>` column assigns the item type onto the single
shared `array` registry entry: after the first `get_columns` call returns,
the attachment (Integer) is still present, and a second call — another table,
whose bare `array` column never re-assigns it — produces a descriptor that
resolves through the same entry and observes that same Integer item type. -/
theorem spec_C9_shared_item_type :
    introspect_twice [(some "x", some "array<int>", none)] [(some "y", some "array", none)]
      = some ([TypeClass.hiveArray], some TypeClass.integer,
          [TypeClass.hiveArray], some TypeClass.integer) :=
  rfl

/-- C10: for every connection and schema argument, `get_view_names` returns
exactly the list `get_table_names` returns, so every table name is also
reported as a view name. -/
theorem spec_C10_view_names :
    ∀ (conn : Conn) (schema : Option String),
      get_view_names conn schema = get_table_names conn schema
      ∧ ∀ t : String, t ∈ get_table_names conn schema → t ∈ get_view_names conn schema := by
  intro conn schema
  exact ⟨rfl, fun t ht => ht⟩

/-- C10 witness: a concrete connection reporting one table reports it as a
view as well. -/
theorem spec_C10_view_names_witness :
    "t1" ∈ get_table_names (fun _ => [("t1", [])]) none
    ∧ "t1" ∈ get_view_names (fun _ => [("t1", [])]) none :=
  ⟨by simp [get_table_names],
    (spec_C10_view_names (fun _ => [("t1", [])]) none).2 "t1" (by simp [get_table_names])⟩
